import Mathlib

/-!
Verification of the trading-signal pipeline of this repository against its
specification.  The development embeds, in Lean:

* `apps/broker/functions/signal_parser.py` (`parse_signal`) — a pure function
  from a message to a parsed signal or a rejection reason;
* `apps/broker/tasks/paser_signal_task.py` (`process_signal_task`) — the
  Signal Processing Worker acting on a database-plus-task-queue state;
* `apps/order/tasks/order_life_cycle_task.py` (`simulate_order_lifecycle`) —
  the Order Lifecycle Simulator.

Modelling conventions:

* Python strings are `List Char` (ASCII behaviour of `str.upper`, `str.strip`
  and `\s` is modelled; the exotic Unicode categories do not occur in the
  repository's message formats).
* Python floats produced by `float(...)` on the numeric tokens of a signal are
  modelled exactly (`PyFloat`): finite values as decimals `num * 10 ^ exp`,
  plus `nan` and the two infinities, with IEEE-754 comparison semantics —
  every comparison involving `nan` is false.  The conversion grammar covers
  sign, digits with underscore grouping, fraction, exponent, and the
  case-insensitive `nan`/`inf`/`infinity` spellings.
* Django's `transaction.atomic` rolls back all database writes of the block on
  an exception; Celery's `delay` publishes to the broker at call time, outside
  any database transaction (the project configures no transaction-aware or
  eager substitute), so enqueued tasks survive a rollback.
* The one-to-one `Order.signal` field (`order_model.py` line 16) and the
  `MinValueValidator(0)` on stop-loss/take-profit make `Order` creation fail —
  raising, like the Django `IntegrityError`/`ValidationError` — when an order
  for the signal already exists or a guarded price is negative.
-/

/-- Characters accepted by the Python regex class `\s` and by `str.strip`
(ASCII part): space, tab, newline, carriage return, vertical tab, form feed. -/
def pyIsSpace (c : Char) : Bool :=
  c = ' ' ∨ c = '\t' ∨ c = '\n' ∨ c = '\r' ∨ c = Char.ofNat 11 ∨ c = Char.ofNat 12

/-- Python `str.strip()`: drop whitespace from both ends. -/
def pyStrip (l : List Char) : List Char :=
  ((l.dropWhile pyIsSpace).reverse.dropWhile pyIsSpace).reverse

/-- Python `str.upper()` on the ASCII letters. -/
def pyToUpper (c : Char) : Char :=
  if 'a' ≤ c ∧ c ≤ 'z' then Char.ofNat (c.toNat - 32) else c

/-- Python `str.upper()` over a whole string. -/
def pyUpper (l : List Char) : List Char := l.map pyToUpper

/-- Helper for `pySplit`: accumulate the current word (reversed) while
scanning. -/
def pySplitAux : List Char → List Char → List (List Char)
  | [], acc => if acc = [] then [] else [acc.reverse]
  | c :: t, acc =>
    if pyIsSpace c then
      if acc = [] then pySplitAux t [] else acc.reverse :: pySplitAux t []
    else pySplitAux t (c :: acc)

/-- Python `str.split()` with no argument: split on whitespace runs, dropping
empty pieces. -/
def pySplit (l : List Char) : List (List Char) := pySplitAux l []

/-- Python `str.split(sep)` for a single-character separator: split on every
occurrence, keeping empty pieces. -/
def splitOnChar (sep : Char) : List Char → List (List Char)
  | [] => [[]]
  | c :: t =>
    if c = sep then [] :: splitOnChar sep t
    else
      match splitOnChar sep t with
      | [] => [[c]]
      | h :: r => (c :: h) :: r

/-- The double-quote character. -/
def dquoteChar : Char := Char.ofNat 34

/-- The single-quote character. -/
def squoteChar : Char := Char.ofNat 39

/-- One conditional unquoting step of `parse_signal`: when the message both
starts and ends with the quote character `q`, slice off the first and last
character (`message[1:-1]`) and strip the result. -/
def stripQuotePair (q : Char) (l : List Char) : List Char :=
  if l.head? = some q ∧ l.getLast? = some q then pyStrip ((l.drop 1).dropLast)
  else l

/-- The quote-stripping prelude of `parse_signal`: first the double-quote
step, then the single-quote step (lines 23-29 of `signal_parser.py`). -/
def stripQuotes (l : List Char) : List Char :=
  stripQuotePair squoteChar (stripQuotePair dquoteChar l)

/-- Value of a Python float obtained from `float(...)` string conversion: an
exact finite decimal `num * 10 ^ exp`, one of the two infinities, or `nan`. -/
inductive PyFloat where
  | fin (num : Int) (exp : Int)
  | inf (neg : Bool)
  | nan
deriving DecidableEq

/-- Numeric value of a digit character. -/
def digitVal (c : Char) : Nat := c.toNat - 48

/-- Value of a digit string read in base 10. -/
def natOfDigits (ds : List Char) : Nat :=
  ds.foldl (fun a c => 10 * a + digitVal c) 0

/-- Both components of a pair of finite decimals brought to the common
(minimal) exponent, for exact comparison. -/
def finScaled (n1 e1 n2 e2 : Int) : Int × Int :=
  (n1 * ((10 : Int) ^ (e1 - min e1 e2).toNat),
   n2 * ((10 : Int) ^ (e2 - min e1 e2).toNat))

/-- Model of `<=` between Python floats (the code's `<=`/`>=` checks): exact
comparison on finite decimals, IEEE-754 semantics on the specials — every
comparison involving `nan` is false, `-inf` is below and `+inf` above every
non-nan value. -/
def PyFloat.le : PyFloat → PyFloat → Bool
  | .fin n1 e1, .fin n2 e2 => (finScaled n1 e1 n2 e2).1 ≤ (finScaled n1 e1 n2 e2).2
  | .fin _ _, .inf b => !b
  | .inf b, .fin _ _ => b
  | .inf b1, .inf b2 => b1 || !b2
  | _, _ => false

/-- Model of `<` between Python floats (same conventions as `PyFloat.le`). -/
def PyFloat.lt : PyFloat → PyFloat → Bool
  | .fin n1 e1, .fin n2 e2 => (finScaled n1 e1 n2 e2).1 < (finScaled n1 e1 n2 e2).2
  | .fin _ _, .inf b => !b
  | .inf b, .fin _ _ => b
  | .inf b1, .inf b2 => b1 && !b2
  | _, _ => false

/-- Python `str.lower()` on the ASCII letters. -/
def pyToLower (c : Char) : Char :=
  if 'A' ≤ c ∧ c ≤ 'Z' then Char.ofNat (c.toNat + 32) else c

/-- Continuation of an underscore-grouped digit run (Python's lexical rule: a
single underscore may appear only between two digits).  Returns the digits
collected, underscores dropped, and the unconsumed rest. -/
def digitsUAux : List Char → List Char × List Char
  | [] => ([], [])
  | '_' :: c :: t2 =>
    if c.isDigit then
      match digitsUAux t2 with
      | (ds, r) => (c :: ds, r)
    else ([], '_' :: c :: t2)
  | ['_'] => ([], ['_'])
  | c :: t =>
    if c.isDigit then
      match digitsUAux t with
      | (ds, r) => (c :: ds, r)
    else ([], c :: t)

/-- An underscore-grouped digit run; it must start with a digit. -/
def takeDigitsU (l : List Char) : List Char × List Char :=
  match l with
  | c :: t =>
    if c.isDigit then
      match digitsUAux t with
      | (ds, r) => (c :: ds, r)
    else ([], l)
  | [] => ([], [])

/-- Sign part of Python `float(...)` string conversion. -/
def pyFloatSign : List Char → Int × List Char
  | '+' :: t => (1, t)
  | '-' :: t => (-1, t)
  | t => (1, t)

/-- Exponent suffix of Python `float(...)`: `[+-]?digits` (underscore
grouping allowed), which must consume the whole rest. -/
def pyFloatExp (mant : Int) (fexp : Int) (t : List Char) : Option PyFloat :=
  match pyFloatSign t with
  | (esgn, t1) =>
    match takeDigitsU t1 with
    | (ed, r) =>
      if ed ≠ [] ∧ r = [] then
        some (.fin mant (fexp + esgn * (natOfDigits ed : Int)))
      else none

/-- Model of Python `float(s)`: optional surrounding whitespace, optional
sign, then either a case-insensitive `nan`/`inf`/`infinity` spelling or the
decimal grammar — integer and/or fraction digits, with single underscores
allowed between digits, and an optional exponent.  `none` models the
`ValueError` that `float` raises on anything else ("could not convert string
to float"). -/
def pyFloat? (l : List Char) : Option PyFloat :=
  match pyFloatSign (pyStrip l) with
  | (sgn, l1) =>
    if l1.map pyToLower = ['n', 'a', 'n'] then some .nan
    else if l1.map pyToLower = ['i', 'n', 'f'] ∨
        l1.map pyToLower = ['i', 'n', 'f', 'i', 'n', 'i', 't', 'y'] then
      some (.inf (decide (sgn < 0)))
    else
      match takeDigitsU l1 with
      | (ip, r1) =>
        match (match r1 with | '.' :: t => takeDigitsU t | _ => ([], r1)) with
        | (fp, r2) =>
          if ip = [] ∧ fp = [] then none
          else
            let mant : Int := sgn * (natOfDigits (ip ++ fp) : Int)
            let fexp : Int := -(fp.length : Int)
            match r2 with
            | [] => some (.fin mant fexp)
            | 'e' :: t => pyFloatExp mant fexp t
            | 'E' :: t => pyFloatExp mant fexp t
            | _ => none

/-- Is the character in the regex class `[A-Z]`? -/
def isUpperAZ (c : Char) : Bool := 'A' ≤ c ∧ c ≤ 'Z'

/-- Is the character in the regex class `[\d.]`? -/
def isDigitDot (c : Char) : Bool := c.isDigit ∨ c = '.'

/-- Captured groups of the first-line regex of `parse_signal`. -/
structure FirstLine where
  action : List Char
  instrument : List Char
  priceTok : Option (List Char)
deriving DecidableEq

/-- The bracketed price alternative `\[@?([\d.]+)[^\]]*\]` of the first-line
regex, applied to the text after the opening bracket; the close bracket must
also end the line (the regex is `$`-anchored right after the group). -/
def matchBracketPrice (t : List Char) : Option (List Char) :=
  let t1 := if t.head? = some '@' then t.drop 1 else t
  let d := t1.takeWhile isDigitDot
  let rest := t1.dropWhile isDigitDot
  if d ≠ [] ∧ rest ≠ [] ∧ rest.getLast? = some ']' ∧ ¬ (']' ∈ rest.dropLast) then
    some d
  else none

/-- Model of matching `^(BUY|SELL)\s+([A-Z]+)(?:\s*(?:\[@?([\d.]+)[^\]]*\]|@([\d.]+)))?$`
against the first line (line 41 of `signal_parser.py`).  The regex is
deterministic on this pattern: the character classes of adjacent pieces are
disjoint, so greedy matching without backtracking is faithful. -/
def matchFirstLine (l : List Char) : Option FirstLine :=
  let act? : Option (List Char × List Char) :=
    if l.take 3 = ['B', 'U', 'Y'] then some (['B', 'U', 'Y'], l.drop 3)
    else if l.take 4 = ['S', 'E', 'L', 'L'] then some (['S', 'E', 'L', 'L'], l.drop 4)
    else none
  match act? with
  | none => none
  | some (a, r0) =>
    if r0.takeWhile pyIsSpace = [] then none
    else
      let r1 := r0.dropWhile pyIsSpace
      let inst := r1.takeWhile isUpperAZ
      let r2 := r1.dropWhile isUpperAZ
      if inst = [] then none
      else if r2 = [] then some ⟨a, inst, none⟩
      else
        match r2.dropWhile pyIsSpace with
        | '@' :: t =>
          if t ≠ [] ∧ t.all isDigitDot then some ⟨a, inst, some t⟩ else none
        | '[' :: t =>
          match matchBracketPrice t with
          | some d => some ⟨a, inst, some d⟩
          | none => none
        | _ => none

/-- The parsed-signal payload (the `data` dictionary of a valid result). -/
structure SignalData where
  action : List Char
  instrument : List Char
  price : Option PyFloat
  stop_loss : PyFloat
  take_profit : PyFloat
deriving DecidableEq

/-- Result dictionary of `parse_signal`: either `{"valid": True, "data": …}`
or `{"valid": False, "error": …}`. -/
inductive ParseResult where
  | ok (data : SignalData)
  | err (error : String)
deriving DecidableEq

/-- The `valid` field of the result dictionary. -/
def ParseResult.valid : ParseResult → Bool
  | .ok _ => true
  | .err _ => false

/-- The `error` field of the result dictionary (absent on valid results). -/
def ParseResult.error? : ParseResult → Option String
  | .ok _ => none
  | .err e => some e

/-- The SL/TP scan of `parse_signal` (lines 57-76): walk the lines after the
first, case-insensitively; a line starting `SL` (resp. `TP`) must carry a
second whitespace-separated token convertible by `float`, else the scan fails
immediately with the corresponding format error; later hits overwrite earlier
values. -/
def scanSLTP : List (List Char) → Option PyFloat → Option PyFloat →
    Except String (Option PyFloat × Option PyFloat)
  | [], sl, tp => .ok (sl, tp)
  | line :: rest, sl, tp =>
    if (pyUpper line).take 2 = ['S', 'L'] then
      match (pySplit line).drop 1 with
      | [] => .error "Invalid SL format"
      | tok :: _ =>
        match pyFloat? tok with
        | none => .error "Invalid SL format"
        | some v => scanSLTP rest (some v) tp
    else if (pyUpper line).take 2 = ['T', 'P'] then
      match (pySplit line).drop 1 with
      | [] => .error "Invalid TP format"
      | tok :: _ =>
        match pyFloat? tok with
        | none => .error "Invalid TP format"
        | some v => scanSLTP rest sl (some v)
    else scanSLTP rest sl tp

/-- Tail of `parse_signal` after the first line matched and the optional price
converted: SL/TP extraction, missing-field checks and the cross-field
validation (lines 57-111). -/
def parseAfterFirstLine (fl : FirstLine) (price : Option PyFloat)
    (rest : List (List Char)) : ParseResult :=
  match scanSLTP rest none none with
  | .error e => .err e
  | .ok (sl?, tp?) =>
    match sl? with
    | none => .err "SL missing"
    | some sl =>
      match tp? with
      | none => .err "TP missing"
      | some tp =>
        if fl.action = ['B', 'U', 'Y'] ∧ PyFloat.le tp sl then
          .err "For BUY, SL must be lower than TP"
        else if fl.action = ['S', 'E', 'L', 'L'] ∧ PyFloat.le sl tp then
          .err "For SELL, SL must be higher than TP"
        else .ok ⟨fl.action, fl.instrument, price, sl, tp⟩

/-- Embedding of `parse_signal` (`signal_parser.py`).  The argument is
`none` for a non-string input (Python `None`); `float(price)` failing on the
captured price token is the one reachable exception inside the `try`, and the
outer handler turns it into the `Unexpected error: …` result. -/
def parse_signal (message : Option String) : ParseResult :=
  match message with
  | none => .err "Empty message"
  | some s =>
    if s.data = [] then .err "Empty message"
    else
      let lines := ((splitOnChar '\n' (stripQuotes s.data)).map pyStrip).filter (· ≠ [])
      match lines with
      | [] => .err "Incomplete signal data"
      | [_] => .err "Incomplete signal data"
      | first :: rest =>
        match matchFirstLine first with
        | none => .err "Invalid first line format"
        | some fl =>
          match fl.priceTok with
          | none => parseAfterFirstLine fl none rest
          | some tok =>
            match pyFloat? tok with
            | none =>
              .err ("Unexpected error: could not convert string to float: " ++
                String.mk [squoteChar] ++ String.mk tok ++ String.mk [squoteChar])
            | some p => parseAfterFirstLine fl (some p) rest

/-- Signal statuses (`SignalStatusChoices`, `apps/broker/models/choices.py`). -/
inductive SignalStatus where
  | pending | processing | success | failed
deriving DecidableEq

/-- Order statuses (`OrderStatus`, `apps/order/models/choices.py`). -/
inductive OrderStatus where
  | pending | executed | closed | rejected | cancelled
deriving DecidableEq

/-- Order actions (`Action`, `apps/order/models/choices.py`). -/
inductive OrderAction where
  | buy | sell
deriving DecidableEq

/-- The stored string value of an order status (`OrderStatus.<X>.value`). -/
def OrderStatus.value : OrderStatus → String
  | .pending => "pending"
  | .executed => "executed"
  | .closed => "closed"
  | .rejected => "rejected"
  | .cancelled => "cancelled"

/-- A `TradingSignal` row (`apps/broker/models/signals_model.py`); the fields
the pipeline reads or writes. -/
structure TradingSignal where
  id : Nat
  raw_message : Option String
  status : SignalStatus
  error_message : Option String
deriving DecidableEq

/-- An `Order` row (`apps/order/models/order_model.py`); the fields the
pipeline reads or writes.  `signalId` models the nullable one-to-one
`signal` field. -/
structure Order where
  id : Nat
  signalId : Option Nat
  action : Option OrderAction
  instrument : List Char
  entry_price : Option PyFloat
  stop_loss : PyFloat
  take_profit : PyFloat
  status : OrderStatus
deriving DecidableEq

/-- An `OrderHistory` row (`apps/order/models/order_model.py`). -/
structure OrderHistoryRow where
  orderId : Nat
  status : OrderStatus
deriving DecidableEq

/-- A message sitting in the Celery broker queue: the tasks and broadcast
events the pipeline enqueues with `.delay`. -/
inductive QueuedTask where
  | simulateLifecycle (orderId : Nat)
  | broadcastOrderEvent (etype : String) (orderId : Nat) (status : OrderStatus)
  | notifySignalInvalid (signalId : Nat) (error : Option String)
deriving DecidableEq

/-- The database tables the pipeline touches. -/
structure DB where
  signals : List TradingSignal
  orders : List Order
  histories : List OrderHistoryRow
deriving DecidableEq

/-- Database plus broker queue.  Celery `delay` appends to `queue` at call
time; database transactions never roll the queue back. -/
structure SysState where
  db : DB
  queue : List QueuedTask
deriving DecidableEq

/-- Look a signal up by primary key (`TradingSignal.objects.get(id=...)`). -/
def findSignal (db : DB) (sid : Nat) : Option TradingSignal :=
  db.signals.find? (fun s => s.id = sid)

/-- Look an order up by primary key (`Order.objects.filter(id=...).first()`). -/
def findOrder (db : DB) (oid : Nat) : Option Order :=
  db.orders.find? (fun o => o.id = oid)

/-- Rewrite one signal row in place (`signal.save(...)`). -/
def updSignal (db : DB) (sid : Nat) (f : TradingSignal → TradingSignal) : DB :=
  { db with signals := db.signals.map (fun s => if s.id = sid then f s else s) }

/-- Rewrite one order row's status in place
(`order.save(update_fields=["status"])`). -/
def updOrderStatus (db : DB) (oid : Nat) (st : OrderStatus) : DB :=
  { db with orders := db.orders.map (fun o => if o.id = oid then { o with status := st } else o) }

/-- A fresh primary key for a new order row. -/
def freshOrderId (db : DB) : Nat :=
  db.orders.foldl (fun m o => max m o.id) 0 + 1

/-- Number of order rows whose one-to-one `signal` field references the given
signal. -/
def countOrdersFor (db : DB) (sid : Nat) : Nat :=
  (db.orders.filter (fun o => decide (o.signalId = some sid))).length

/-- Modelled from the spec: `round_half_up` from
`_library/functions/number_utils.py` is imported by the Signal Processing
Worker but that file is absent from the repository snapshot.  The spec
(§4.2 step 4) says prices are "rounded half-up to 4 fraction digits"; on the
exact decimal `num * 10 ^ exp` this rounds to `p` fraction digits, ties going
away from zero; the spec is silent on non-finite input, so `nan` and the
infinities pass through unchanged. -/
def roundHalfUp (p : Nat) (x : PyFloat) : PyFloat :=
  match x with
  | .fin num exp =>
    if 0 ≤ exp + p then .fin (num * ((10 : Int) ^ (exp + p).toNat)) (-(p : Int))
    else
      let scale : Nat := 10 ^ (-(exp + (p : Int))).toNat
      let q : Int := ((num.natAbs + scale / 2) / scale : Nat)
      .fin (if num < 0 then -q else q) (-(p : Int))
  | x => x

/-- Is the value negative?  Models `MinValueValidator(0)` on the stop-loss
and take-profit columns, checked by `full_clean` on save (`nan` compares
neither below nor above 0, so the validator passes it). -/
def PyFloat.isNeg : PyFloat → Bool
  | .fin n _ => n < 0
  | .inf b => b
  | .nan => false

/-- Outcome of one worker invocation: the post state, whether the task raised
(triggering the retry policy), and the sequence of status values written to
the processed signal row, in write order. -/
structure ProcResult where
  state : SysState
  raised : Bool
  sigWrites : List SignalStatus
deriving DecidableEq

/-- Embedding of `process_signal_task` (`paser_signal_task.py`).

`failHistoryCreate` injects an infrastructure failure at the
`OrderHistory.objects.create` call inside the atomic block (the last database
write of the block), modelling a crash after the two `.delay` calls;
`excMsg` is the `str(e)` text recorded for a raised exception.

Semantics followed from the source: the `processing` write (lines 21-23)
happens unconditionally before the `try`; an invalid parse marks the signal
`failed` and enqueues the `signal.invalid` notification (lines 28-40); a valid
parse opens `atomic()` and creates the order (`pending`, prices rounded
half-up to 4 digits), enqueues the `order.pending` broadcast and the lifecycle
task, and creates the initial history row (lines 43-77); order creation
raises — like Django's one-to-one/validator enforcement — when an order for
the signal exists or a guarded price is negative; an exception inside the
block rolls the block's database writes back but not the queue, and the
handler (lines 82-86) marks the signal `failed` and re-raises; on commit the
signal is marked `success` (lines 79-80). -/
def process_signal_task (st : SysState) (sid : Nat) (failHistoryCreate : Bool)
    (excMsg : String) : ProcResult :=
  match findSignal st.db sid with
  | none => ⟨st, true, []⟩
  | some sig =>
    let db1 := updSignal st.db sid (fun s => { s with status := .processing })
    match parse_signal sig.raw_message with
    | .err e =>
      let db2 := updSignal db1 sid
        (fun s => { s with status := .failed, error_message := some e })
      ⟨⟨db2, st.queue ++ [.notifySignalInvalid sid (some (String.mk e.data))]⟩,
        false, [.processing, .failed]⟩
    | .ok d =>
      let sl := roundHalfUp 4 d.stop_loss
      let tp := roundHalfUp 4 d.take_profit
      if (db1.orders.any fun o => decide (o.signalId = some sid)) ∨
          PyFloat.isNeg sl ∨ PyFloat.isNeg tp then
        let db2 := updSignal db1 sid
          (fun s => { s with status := .failed, error_message := some excMsg })
        ⟨⟨db2, st.queue⟩, true, [.processing, .failed]⟩
      else
        let oid := freshOrderId db1
        let newOrder : Order :=
          { id := oid
            signalId := some sid
            action :=
              if d.action = ['B', 'U', 'Y'] then some .buy
              else if d.action = ['S', 'E', 'L', 'L'] then some .sell
              else none
            instrument := d.instrument
            entry_price := d.price.map (roundHalfUp 4)
            stop_loss := sl
            take_profit := tp
            status := .pending }
        let q1 := st.queue ++
          [.broadcastOrderEvent ("order." ++ OrderStatus.value .pending) oid .pending,
           .simulateLifecycle oid]
        if failHistoryCreate then
          let db2 := updSignal db1 sid
            (fun s => { s with status := .failed, error_message := some excMsg })
          ⟨⟨db2, q1⟩, true, [.processing, .failed]⟩
        else
          let dbA := { db1 with orders := db1.orders ++ [newOrder] }
          let dbB := { dbA with histories := dbA.histories ++ [⟨oid, .pending⟩] }
          let db3 := updSignal dbB sid (fun s => { s with status := .success })
          ⟨⟨db3, q1⟩, false, [.processing, .success]⟩

/-- Embedding of `simulate_order_lifecycle` (`order_life_cycle_task.py`).

`fail1`/`fail2` inject an infrastructure failure at the
`OrderHistory.objects.create` call of the first / second atomic block (after
that block's status write and `.delay`); an aborted block's database writes
roll back, the enqueued broadcast does not.  Returns the post state and
whether the task raised.

Semantics followed from the source: a missing order logs and returns without
error (lines 128-131); block one unconditionally writes status `executed`,
enqueues the `order.executed` broadcast and appends an `executed` history row
(lines 136-155); block two does the same for `closed` (lines 159-180).  No
stored-status comparison guards either block. -/
def simulate_order_lifecycle (st : SysState) (oid : Nat) (fail1 fail2 : Bool) :
    SysState × Bool :=
  match findOrder st.db oid with
  | none => (st, false)
  | some _ =>
    let q1 := st.queue ++
      [.broadcastOrderEvent ("order." ++ OrderStatus.value .executed) oid .executed]
    if fail1 then (⟨st.db, q1⟩, true)
    else
      let db1 := updOrderStatus st.db oid .executed
      let db1h := { db1 with histories := db1.histories ++ [⟨oid, .executed⟩] }
      let q2 := q1 ++
        [.broadcastOrderEvent ("order." ++ OrderStatus.value .closed) oid .closed]
      if fail2 then (⟨db1h, q2⟩, true)
      else
        let db2 := updOrderStatus db1h oid .closed
        (⟨{ db2 with histories := db2.histories ++ [⟨oid, .closed⟩] }, q2⟩, false)

/-- The signal status transition relation stated by the spec (§3):
pending→processing and processing→{success, failed}; nothing else. -/
def specSignalTransition : SignalStatus → SignalStatus → Bool
  | .pending, .processing => true
  | .processing, .success => true
  | .processing, .failed => true
  | _, _ => false

/-- Does the status sequence follow `specSignalTransition` step by step? -/
def sigPathOK : List SignalStatus → Bool
  | [] => true
  | [_] => true
  | a :: b :: t => specSignalTransition a b && sigPathOK (b :: t)

/-- The immutable-at-creation fields of an order row: everything except the
status (timestamps are not modelled). -/
def Order.frame (o : Order) :
    Nat × Option Nat × Option OrderAction × List Char × Option PyFloat × PyFloat × PyFloat :=
  (o.id, o.signalId, o.action, o.instrument, o.entry_price, o.stop_loss, o.take_profit)

/-- One lifecycle invocation viewed as a state transformer (the raised flag
dropped), for iterating. -/
def lifecycleStep (st : SysState) (c : Nat × Bool × Bool) : SysState :=
  (simulate_order_lifecycle st c.1 c.2.1 c.2.2).1

/-- States of the pipeline reachable from an order-free start: the webhook
may persist new signals, and the two workers may run with any arguments and
any injected infrastructure failures. -/
inductive Reachable : SysState → Prop
  | init : ∀ (sigs : List TradingSignal) (q : List QueuedTask),
      Reachable ⟨⟨sigs, [], []⟩, q⟩
  | newSignal : ∀ {st : SysState} (s : TradingSignal), Reachable st →
      Reachable ⟨{ st.db with signals := st.db.signals ++ [s] }, st.queue⟩
  | processStep : ∀ {st : SysState} (sid : Nat) (fh : Bool) (msg : String),
      Reachable st → Reachable (process_signal_task st sid fh msg).state
  | lifecycleStepR : ∀ {st : SysState} (oid : Nat) (f1 f2 : Bool),
      Reachable st → Reachable (simulate_order_lifecycle st oid f1 f2).1

/-- The named rejection reasons that `parse_signal` can return from its
explicit validation branches (everything except the `Unexpected error: …`
fallback of the outer handler). -/
def namedRejectionReasons : List String :=
  ["Empty message", "Incomplete signal data", "Invalid first line format",
   "Invalid SL format", "Invalid TP format", "SL missing", "TP missing",
   "For BUY, SL must be lower than TP", "For SELL, SL must be higher than TP"]

/-- Wrap a string in one layer of double quotes. -/
def dqWrap (l : List Char) : List Char := dquoteChar :: l ++ [dquoteChar]

/-- Wrap a string in one layer of single quotes. -/
def sqWrap (l : List Char) : List Char := squoteChar :: l ++ [squoteChar]

theorem dropWhile_eq_self_of_head {p : Char → Bool} {l : List Char} {c : Char}
    (h1 : l.head? = some c) (h2 : p c = false) : l.dropWhile p = l := by
  cases l with
  | nil => rfl
  | cons a t =>
    simp only [List.head?_cons, Option.some.injEq] at h1
    subst h1
    simp [List.dropWhile_cons, h2]

theorem pyStrip_eq_self {l : List Char} {c d : Char}
    (h1 : l.head? = some c) (h2 : pyIsSpace c = false)
    (h3 : l.getLast? = some d) (h4 : pyIsSpace d = false) : pyStrip l = l := by
  unfold pyStrip
  rw [dropWhile_eq_self_of_head h1 h2]
  rw [dropWhile_eq_self_of_head (by rw [List.head?_reverse]; exact h3) h4]
  exact l.reverse_reverse

theorem stripQuotePair_wrap (q : Char) (l : List Char) :
    stripQuotePair q (q :: l ++ [q]) = pyStrip l := by
  unfold stripQuotePair
  rw [if_pos]
  · simp
  · constructor
    · rfl
    · rw [show q :: l ++ [q] = (q :: l) ++ [q] by simp, List.getLast?_concat]

theorem stripQuotePair_ne {q : Char} {l : List Char} {c : Char}
    (h1 : l.head? = some c) (h2 : c ≠ q) : stripQuotePair q l = l := by
  unfold stripQuotePair
  rw [if_neg]
  intro hcontra
  rw [h1] at hcontra
  exact h2 (Option.some.injEq _ _ ▸ hcontra.1)

theorem PyFloat.lt_of_not_le {n1 e1 n2 e2 : Int}
    (h : PyFloat.le (.fin n2 e2) (.fin n1 e1) = false) :
    PyFloat.lt (.fin n1 e1) (.fin n2 e2) = true := by
  simp only [PyFloat.le, finScaled, decide_eq_false_iff_not, Int.not_le] at h
  simp only [PyFloat.lt, finScaled, decide_eq_true_eq]
  rw [min_comm e2 e1] at h
  exact h

theorem parseAfterFirstLine_ok {fl : FirstLine} {price : Option PyFloat}
    {rest : List (List Char)} {d : SignalData}
    (h : parseAfterFirstLine fl price rest = .ok d) :
    d.action = fl.action ∧
    (fl.action = ['B', 'U', 'Y'] → PyFloat.le d.take_profit d.stop_loss = false) ∧
    (fl.action = ['S', 'E', 'L', 'L'] → PyFloat.le d.stop_loss d.take_profit = false) := by
  unfold parseAfterFirstLine at h
  split at h
  · exact absurd h (by simp)
  · split at h
    · exact absurd h (by simp)
    · split at h
      · exact absurd h (by simp)
      · split at h
        · exact absurd h (by simp)
        · split at h
          · exact absurd h (by simp)
          · rename_i sl? tp? sl hsl tp htp hn1 hn2
            cases h
            refine ⟨rfl, ?_, ?_⟩
            · intro ha
              cases hle : PyFloat.le tp sl with
              | false => rfl
              | true => exact absurd ⟨ha, hle⟩ hn1
            · intro ha
              cases hle : PyFloat.le sl tp with
              | false => rfl
              | true => exact absurd ⟨ha, hle⟩ hn2

theorem matchFirstLine_action {l : List Char} {fl : FirstLine}
    (h : matchFirstLine l = some fl) :
    fl.action = ['B', 'U', 'Y'] ∨ fl.action = ['S', 'E', 'L', 'L'] := by
  simp only [matchFirstLine] at h
  split at h
  · exact absurd h (by simp)
  · rename_i a r0 hact
    split at h
    · exact absurd h (by simp)
    · have haction : a = ['B', 'U', 'Y'] ∨ a = ['S', 'E', 'L', 'L'] := by
        split at hact
        · cases hact; exact Or.inl rfl
        · split at hact
          · cases hact; exact Or.inr rfl
          · exact absurd hact (by simp)
      split at h
      · exact absurd h (by simp)
      · split at h
        · cases h; exact haction
        · split at h
          · split at h
            · cases h; exact haction
            · exact absurd h (by simp)
          · split at h
            · cases h; exact haction
            · exact absurd h (by simp)
          · exact absurd h (by simp)

theorem parse_signal_ok_structure {m : Option String} {d : SignalData}
    (h : parse_signal m = .ok d) :
    ∃ (first : List Char) (rest : List (List Char)) (fl : FirstLine)
      (price : Option PyFloat),
      matchFirstLine first = some fl ∧ parseAfterFirstLine fl price rest = .ok d := by
  unfold parse_signal at h
  split at h
  · exact absurd h (by simp)
  · rename_i s
    split at h
    · exact absurd h (by simp)
    · simp only [] at h
      split at h
      · exact absurd h (by simp)
      · exact absurd h (by simp)
      · rename_i lines first rest hx heq
        split at h
        · exact absurd h (by simp)
        · rename_i fl hfl
          split at h
          · exact ⟨first, rest, fl, none, hfl, h⟩
          · rename_i tok htok
            split at h
            · exact absurd h (by simp)
            · rename_i p hp
              exact ⟨first, rest, fl, some p, hfl, h⟩

/-- C4 counterexample: the input `"BUY EURUSD\nSL nan\nTP 2.0"` is accepted
as valid — Python `float("nan")` succeeds, every comparison involving `nan` is
false, so the `sl >= tp` rejection branch is skipped — yet its stop-loss is
not strictly below its take-profit, refuting the claim that every accepted
BUY signal satisfies the strict ordering and that every violating input is
rejected. -/
theorem nan_signal_accepted_counterexample :
    parse_signal (some "BUY EURUSD\nSL nan\nTP 2.0") =
      .ok ⟨['B', 'U', 'Y'], ['E', 'U', 'R', 'U', 'S', 'D'], none, .nan, .fin 20 (-1)⟩ ∧
    PyFloat.lt PyFloat.nan (.fin 20 (-1)) = false := by
  decide

/-- C4 as amended: for every input the Signal Parser accepts as valid, the
action is BUY or SELL, and whenever the parsed stop-loss and take-profit are
both finite numbers, a BUY result has stop-loss strictly below take-profit
and a SELL result has stop-loss strictly above take-profit — so every input
with violating finite SL/TP values (equality included) is rejected.  A `nan`
stop-loss or take-profit, however, defeats the validation (all comparisons
with `nan` are false) and such an input can be accepted without the
ordering. -/
theorem valid_signal_sl_tp_ordering_finite (m : Option String) (d : SignalData)
    (n1 e1 n2 e2 : Int) (h : parse_signal m = .ok d)
    (hsl : d.stop_loss = .fin n1 e1) (htp : d.take_profit = .fin n2 e2) :
    (d.action = ['B', 'U', 'Y'] ∨ d.action = ['S', 'E', 'L', 'L']) ∧
    (d.action = ['B', 'U', 'Y'] → PyFloat.lt d.stop_loss d.take_profit = true) ∧
    (d.action = ['S', 'E', 'L', 'L'] → PyFloat.lt d.take_profit d.stop_loss = true) := by
  obtain ⟨first, rest, fl, price, hfl, hrest⟩ := parse_signal_ok_structure h
  obtain ⟨haction, hbuy, hsell⟩ := parseAfterFirstLine_ok hrest
  have hact := matchFirstLine_action hfl
  rw [← haction] at hact
  refine ⟨hact, ?_, ?_⟩
  · intro hb
    have hle := hbuy (haction ▸ hb)
    rw [hsl, htp] at hle ⊢
    exact PyFloat.lt_of_not_le hle
  · intro hs
    have hle := hsell (haction ▸ hs)
    rw [hsl, htp] at hle ⊢
    exact PyFloat.lt_of_not_le hle

/-- Witness for C4's amended statement at the concrete valid BUY input
`"BUY EURUSD\nSL 1.0\nTP 2.0"`, whose SL and TP are finite. -/
theorem valid_signal_sl_tp_ordering_finite_witness :
    (parse_signal (some "BUY EURUSD\nSL 1.0\nTP 2.0") =
        .ok ⟨['B', 'U', 'Y'], ['E', 'U', 'R', 'U', 'S', 'D'], none, .fin 10 (-1), .fin 20 (-1)⟩ ∧
     PyFloat.fin 10 (-1) = PyFloat.fin 10 (-1) ∧
     PyFloat.fin 20 (-1) = PyFloat.fin 20 (-1)) ∧
    (((['B', 'U', 'Y'] : List Char) = ['B', 'U', 'Y'] ∨
        (['B', 'U', 'Y'] : List Char) = ['S', 'E', 'L', 'L']) ∧
     ((['B', 'U', 'Y'] : List Char) = ['B', 'U', 'Y'] →
        PyFloat.lt (.fin 10 (-1)) (.fin 20 (-1)) = true) ∧
     ((['B', 'U', 'Y'] : List Char) = ['S', 'E', 'L', 'L'] →
        PyFloat.lt (.fin 20 (-1)) (.fin 10 (-1)) = true)) :=
  ⟨⟨by decide, rfl, rfl⟩,
   valid_signal_sl_tp_ordering_finite (some "BUY EURUSD\nSL 1.0\nTP 2.0")
     ⟨['B', 'U', 'Y'], ['E', 'U', 'R', 'U', 'S', 'D'], none, .fin 10 (-1), .fin 20 (-1)⟩
     10 (-1) 20 (-1) (by decide) rfl rfl⟩

/-- C6 counterexample: on `"BUY EURUSD\nSL 1.0890\nTP 1.0850"` the parser does
return an invalid result, but its rejection reason is not the claimed string
`"stop-loss must be lower than take-profit for BUY"`. -/
theorem buy_ordering_reason_counterexample :
    (parse_signal (some "BUY EURUSD\nSL 1.0890\nTP 1.0850")).valid = false ∧
    (parse_signal (some "BUY EURUSD\nSL 1.0890\nTP 1.0850")).error? ≠
      some "stop-loss must be lower than take-profit for BUY" := by
  decide

/-- C6 as amended: parsing `"BUY EURUSD\nSL 1.0890\nTP 1.0850"` returns an
invalid result whose rejection reason is exactly
`"For BUY, SL must be lower than TP"`. -/
theorem buy_ordering_reason :
    parse_signal (some "BUY EURUSD\nSL 1.0890\nTP 1.0850") =
      .err "For BUY, SL must be lower than TP" := by
  decide

/-- C7 counterexample: an input wrapped in double quotes whose inner content
is itself wrapped in single quotes has BOTH layers removed by the parser's
quote-stripping prelude — the result is the fully unquoted text, not the
single-quoted inner layer that removing only one enclosing pair would leave. -/
theorem quote_strip_counterexample :
    stripQuotes ("\"'BUY EURUSD'\"").data = ("BUY EURUSD").data ∧
    ("BUY EURUSD").data ≠ ("'BUY EURUSD'").data := by
  decide

/-- C7 as amended: before line-splitting the parser strips at most one
matching double-quote pair and then at most one matching single-quote pair, in
that order; hence a double-quoted input with single-quoted inner content loses
both layers, while a single-quoted input with double-quoted inner content
keeps the inner double quotes. -/
theorem quote_strip_layers (inner : List Char) (c d : Char)
    (h1 : inner.head? = some c) (h2 : pyIsSpace c = false)
    (h3 : inner.getLast? = some d) (h4 : pyIsSpace d = false) :
    stripQuotes (dqWrap (sqWrap inner)) = inner ∧
    (∀ l : List Char, stripQuotes (sqWrap (dqWrap l)) = dqWrap l) := by
  constructor
  · unfold stripQuotes
    rw [show dqWrap (sqWrap inner) = dquoteChar :: sqWrap inner ++ [dquoteChar] from rfl]
    rw [stripQuotePair_wrap]
    have hs : pyStrip (sqWrap inner) = sqWrap inner := by
      apply pyStrip_eq_self (c := squoteChar) (d := squoteChar)
      · rfl
      · decide
      · rw [show sqWrap inner = (squoteChar :: inner) ++ [squoteChar] by simp [sqWrap]]
        exact List.getLast?_concat _
      · decide
    rw [hs]
    rw [show sqWrap inner = squoteChar :: inner ++ [squoteChar] from rfl]
    rw [stripQuotePair_wrap]
    exact pyStrip_eq_self h1 h2 h3 h4
  · intro l
    unfold stripQuotes
    have hd : stripQuotePair dquoteChar (sqWrap (dqWrap l)) = sqWrap (dqWrap l) := by
      apply stripQuotePair_ne (c := squoteChar)
      · rfl
      · decide
    rw [hd]
    rw [show sqWrap (dqWrap l) = squoteChar :: dqWrap l ++ [squoteChar] from rfl]
    rw [stripQuotePair_wrap]
    apply pyStrip_eq_self (c := dquoteChar) (d := dquoteChar)
    · rfl
    · decide
    · rw [show dqWrap l = (dquoteChar :: l) ++ [dquoteChar] by simp [dqWrap]]
      exact List.getLast?_concat _
    · decide

/-- Witness for C7's amended statement at the inner text `"BUY EURUSD"`. -/
theorem quote_strip_layers_witness :
    (("BUY EURUSD").data.head? = some 'B' ∧ pyIsSpace 'B' = false ∧
     ("BUY EURUSD").data.getLast? = some 'D' ∧ pyIsSpace 'D' = false) ∧
    (stripQuotes (dqWrap (sqWrap ("BUY EURUSD").data)) = ("BUY EURUSD").data ∧
     (∀ l : List Char, stripQuotes (sqWrap (dqWrap l)) = dqWrap l)) :=
  ⟨by decide,
   quote_strip_layers ("BUY EURUSD").data 'B' 'D' (by decide) (by decide) (by decide) (by decide)⟩

/-- C9: the parser is total — every input, the non-string input and the empty
string included, produces a result dictionary that is either valid or carries
an error reason; and an input passing the first-line regex with a price token
that `float` cannot convert (here `1.0.8`) is rejected through the outer
exception handler with an `Unexpected error: …` reason that is none of the
named rejection reasons. -/
theorem parser_total_and_unexpected_price_error :
    (∀ m : Option String, (parse_signal m).valid = true ∨ ∃ e, parse_signal m = .err e) ∧
    parse_signal none = .err "Empty message" ∧
    parse_signal (some "") = .err "Empty message" ∧
    parse_signal (some "BUY EURUSD@1.0.8\nSL 1.0\nTP 2.0") =
      .err "Unexpected error: could not convert string to float: '1.0.8'" ∧
    "Unexpected error: could not convert string to float: '1.0.8'" ∉ namedRejectionReasons := by
  refine ⟨?_, by decide, by decide, by decide, by decide⟩
  intro m
  cases h : parse_signal m with
  | ok d => exact Or.inl rfl
  | err e => exact Or.inr ⟨e, rfl⟩

theorem mem_updOrderStatus {db : DB} {oid : Nat} {s : OrderStatus} {o : Order}
    (h : o ∈ (updOrderStatus db oid s).orders) : o ∈ db.orders ∨ o.status = s := by
  simp only [updOrderStatus, List.mem_map] at h
  obtain ⟨a, ha, hfa⟩ := h
  by_cases hid : a.id = oid
  · right
    rw [← hfa, if_pos hid]
  · left
    rw [← hfa, if_neg hid]
    exact ha

theorem updOrderStatus_map_frame (db : DB) (oid : Nat) (s : OrderStatus) :
    (updOrderStatus db oid s).orders.map Order.frame = db.orders.map Order.frame := by
  simp only [updOrderStatus, List.map_map]
  apply List.map_congr_left
  intro o _
  by_cases h : o.id = oid <;> simp [h, Order.frame, Function.comp]

theorem lifecycleStep_map_frame (st : SysState) (c : Nat × Bool × Bool) :
    (lifecycleStep st c).db.orders.map Order.frame = st.db.orders.map Order.frame := by
  unfold lifecycleStep simulate_order_lifecycle
  cases h : findOrder st.db c.1 with
  | none => rfl
  | some o =>
    simp only []
    split
    · rfl
    · split
      · exact updOrderStatus_map_frame st.db c.1 .executed
      · show ((updOrderStatus { updOrderStatus st.db c.1 .executed with
            histories := (updOrderStatus st.db c.1 .executed).histories ++ [⟨c.1, .executed⟩] }
            c.1 .closed).orders.map Order.frame) = st.db.orders.map Order.frame
        rw [updOrderStatus_map_frame]
        exact updOrderStatus_map_frame st.db c.1 .executed

theorem process_orders_subset {st : SysState} {sid : Nat} {fh : Bool} {msg : String}
    {o : Order} (h : o ∈ (process_signal_task st sid fh msg).state.db.orders) :
    o ∈ st.db.orders ∨ o.status = OrderStatus.pending := by
  unfold process_signal_task at h
  split at h
  · exact Or.inl h
  · split at h
    · exact Or.inl h
    · simp only [] at h
      split at h
      · exact Or.inl h
      · split at h
        · exact Or.inl h
        · rcases List.mem_append.mp h with h1 | h1
          · exact Or.inl h1
          · right
            rw [List.mem_singleton.mp h1]

theorem lifecycle_orders_subset {st : SysState} {oid : Nat} {f1 f2 : Bool} {o : Order}
    (h : o ∈ (simulate_order_lifecycle st oid f1 f2).1.db.orders) :
    o ∈ st.db.orders ∨ o.status = OrderStatus.executed ∨ o.status = OrderStatus.closed := by
  unfold simulate_order_lifecycle at h
  split at h
  · exact Or.inl h
  · simp only [] at h
    split at h
    · exact Or.inl h
    · split at h
      · rcases mem_updOrderStatus h with h1 | h1
        · exact Or.inl h1
        · exact Or.inr (Or.inl h1)
      · rcases mem_updOrderStatus h with h1 | h1
        · rcases mem_updOrderStatus h1 with h2 | h2
          · exact Or.inl h2
          · exact Or.inr (Or.inl h2)
        · exact Or.inr (Or.inr h1)

/-- C1: evaluation of the Signal Processing Worker at a failing input — a
valid pending signal whose initial `OrderHistory` creation raises inside the
atomic block.  The transaction aborts (no Order row and no OrderHistory row is
persisted and the task re-raises), yet both the `order.pending` broadcast
event and the Lifecycle Simulator task are already in the broker queue,
because `.delay` published them at call time inside the block: enqueueing is
not part of the transactional unit of work. -/
theorem abort_after_enqueue_leaks_tasks :
    (process_signal_task ⟨⟨[⟨1, some "BUY EURUSD\nSL 1.0\nTP 2.0", .pending, none⟩], [], []⟩, []⟩
      1 true "database unavailable").raised = true ∧
    (process_signal_task ⟨⟨[⟨1, some "BUY EURUSD\nSL 1.0\nTP 2.0", .pending, none⟩], [], []⟩, []⟩
      1 true "database unavailable").state.db.orders = [] ∧
    (process_signal_task ⟨⟨[⟨1, some "BUY EURUSD\nSL 1.0\nTP 2.0", .pending, none⟩], [], []⟩, []⟩
      1 true "database unavailable").state.db.histories = [] ∧
    (process_signal_task ⟨⟨[⟨1, some "BUY EURUSD\nSL 1.0\nTP 2.0", .pending, none⟩], [], []⟩, []⟩
      1 true "database unavailable").state.queue =
      [.broadcastOrderEvent "order.pending" 1 .pending, .simulateLifecycle 1] := by
  decide

/-- C2 counterexample: re-delivering the Signal Processing Worker for a
signal already in terminal `success` state (here with its one-to-one order
already created) writes `processing` and then `failed` to the signal, a
status path that leaves the claimed transition relation — terminal states are
not final under re-delivery. -/
theorem terminal_signal_reprocessing_counterexample :
    (findSignal (DB.mk [⟨1, some "BUY EURUSD\nSL 1.0\nTP 2.0", .success, none⟩]
        [⟨1, some 1, some .buy, ['E', 'U', 'R', 'U', 'S', 'D'], none, .fin 10000 (-4), .fin 20000 (-4), .closed⟩]
        []) 1).map TradingSignal.status = some .success ∧
    sigPathOK (SignalStatus.success ::
      (process_signal_task ⟨⟨[⟨1, some "BUY EURUSD\nSL 1.0\nTP 2.0", .success, none⟩],
        [⟨1, some 1, some .buy, ['E', 'U', 'R', 'U', 'S', 'D'], none, .fin 10000 (-4), .fin 20000 (-4), .closed⟩],
        []⟩, []⟩ 1 false "duplicate key value violates unique constraint").sigWrites) = false := by
  decide

/-- C2 as amended: for a RawSignal whose stored status is `pending`, any
single invocation of the Signal Processing Worker (any parse outcome, any
injected infrastructure failure) writes statuses that follow the
pending→processing→{success, failed} relation step by step; but a re-delivered
invocation for a signal already in a terminal state first overwrites the
status to `processing` unconditionally, so terminal states are final only in
the absence of re-delivery. -/
theorem pending_signal_status_writes_follow_fsm (st : SysState) (sid : Nat)
    (fh : Bool) (msg : String) (sig : TradingSignal)
    (hfind : findSignal st.db sid = some sig) (hstat : sig.status = .pending) :
    sigPathOK (SignalStatus.pending :: (process_signal_task st sid fh msg).sigWrites) = true := by
  unfold process_signal_task
  rw [hfind]
  dsimp only
  split
  · rfl
  · split
    · rfl
    · split
      · rfl
      · rfl

/-- Witness for C2's amended statement at a concrete pending signal. -/
theorem pending_signal_status_writes_witness :
    (findSignal (DB.mk [⟨1, some "BUY EURUSD\nSL 1.0\nTP 2.0", .pending, none⟩] [] []) 1 =
        some ⟨1, some "BUY EURUSD\nSL 1.0\nTP 2.0", .pending, none⟩ ∧
     TradingSignal.status ⟨1, some "BUY EURUSD\nSL 1.0\nTP 2.0", .pending, none⟩ = .pending) ∧
    sigPathOK (SignalStatus.pending ::
      (process_signal_task ⟨⟨[⟨1, some "BUY EURUSD\nSL 1.0\nTP 2.0", .pending, none⟩], [], []⟩, []⟩
        1 false "e").sigWrites) = true :=
  ⟨⟨by decide, rfl⟩,
   pending_signal_status_writes_follow_fsm
     ⟨⟨[⟨1, some "BUY EURUSD\nSL 1.0\nTP 2.0", .pending, none⟩], [], []⟩, []⟩ 1 false "e"
     ⟨1, some "BUY EURUSD\nSL 1.0\nTP 2.0", .pending, none⟩ (by decide) rfl⟩

/-- C3: evaluation of the Order Lifecycle Simulator at a failing input — an
order whose stored status is already `executed` with its history rows
`pending, executed` persisted (a retry after a crash during the second
transition).  Re-invoking the task re-applies the `executed` transition
unconditionally: afterwards two `executed` history rows exist for the order
and a second `order.executed` broadcast has been enqueued, contradicting the
claimed idempotent re-application. -/
theorem lifecycle_retry_duplicates_history :
    ((simulate_order_lifecycle ⟨⟨[],
        [⟨1, some 1, some .buy, ['E', 'U', 'R', 'U', 'S', 'D'], none, .fin 10000 (-4), .fin 20000 (-4), .executed⟩],
        [⟨1, .pending⟩, ⟨1, .executed⟩]⟩, []⟩ 1 false false).1.db.histories.filter
      (fun h => decide (h.orderId = 1 ∧ h.status = OrderStatus.executed))).length = 2 ∧
    (simulate_order_lifecycle ⟨⟨[],
        [⟨1, some 1, some .buy, ['E', 'U', 'R', 'U', 'S', 'D'], none, .fin 10000 (-4), .fin 20000 (-4), .executed⟩],
        [⟨1, .pending⟩, ⟨1, .executed⟩]⟩, []⟩ 1 false false).1.queue =
      [.broadcastOrderEvent "order.executed" 1 .executed,
       .broadcastOrderEvent "order.closed" 1 .closed] := by
  decide

/-- C5: re-invoking the Signal Processing Worker for a signal already in
terminal `success` state never leaves more than one Order linked to that
signal: with at most one linked order before the re-invocation, at most one
order references the signal afterwards (the one-to-one constraint makes the
duplicate creation raise instead of inserting). -/
theorem reinvocation_preserves_single_order (st : SysState) (sid : Nat) (fh : Bool)
    (msg : String) (sig : TradingSignal)
    (hfind : findSignal st.db sid = some sig) (hstat : sig.status = .success)
    (hcount : countOrdersFor st.db sid ≤ 1) :
    countOrdersFor (process_signal_task st sid fh msg).state.db sid ≤ 1 := by
  unfold process_signal_task
  rw [hfind]
  dsimp only
  split
  · exact hcount
  · split
    · exact hcount
    · rename_i hno
      split
      · exact hcount
      · have hany : (st.db.orders.any fun o => decide (o.signalId = some sid)) = false := by
          cases hq : st.db.orders.any fun o => decide (o.signalId = some sid) with
          | false => rfl
          | true => exact absurd (Or.inl hq) hno
        have h0 : st.db.orders.filter (fun o => decide (o.signalId = some sid)) = [] := by
          rw [List.filter_eq_nil_iff]
          intro a ha
          have := (List.any_eq_false.mp hany) a ha
          simpa using this
        simp [countOrdersFor, List.filter_append, updSignal, h0]

/-- C8: the Order Lifecycle Simulator never changes an order's action,
instrument, entry price, stop-loss or take-profit — after any sequence of
lifecycle invocations (any order ids, any injected failures), every order
row's non-status fields equal their values before, so they keep their values
from creation; only the status field is rewritten. -/
theorem lifecycle_changes_only_status (st : SysState)
    (calls : List (Nat × Bool × Bool)) :
    (calls.foldl lifecycleStep st).db.orders.map Order.frame =
      st.db.orders.map Order.frame := by
  induction calls generalizing st with
  | nil => rfl
  | cons c t ih => rw [List.foldl_cons, ih, lifecycleStep_map_frame]

/-- C10: in every pipeline-reachable state, no order has status `rejected` or
`cancelled` — the worker only creates orders as `pending` and the simulator
only ever writes `executed` and `closed`. -/
theorem reachable_orders_never_rejected_cancelled (st : SysState)
    (h : Reachable st) :
    ∀ o ∈ st.db.orders, o.status ≠ OrderStatus.rejected ∧ o.status ≠ OrderStatus.cancelled := by
  induction h with
  | init sigs q =>
    intro o ho
    exact absurd ho (List.not_mem_nil o)
  | newSignal s _ ih =>
    intro o ho
    exact ih o ho
  | processStep sid fh msg _ ih =>
    intro o ho
    rcases process_orders_subset ho with h1 | h1
    · exact ih o h1
    · exact ⟨by simp [h1], by simp [h1]⟩
  | lifecycleStepR oid f1 f2 _ ih =>
    intro o ho
    rcases lifecycle_orders_subset ho with h1 | h1 | h1
    · exact ih o h1
    · exact ⟨by simp [h1], by simp [h1]⟩
    · exact ⟨by simp [h1], by simp [h1]⟩

/-- Witness for C10 at a concrete reachable state holding one order: the
state after the worker processed a valid pending signal from an order-free
start. -/
theorem reachable_orders_witness :
    Reachable (process_signal_task
      ⟨⟨[⟨1, some "BUY EURUSD\nSL 1.0\nTP 2.0", .pending, none⟩], [], []⟩, []⟩ 1 false "e").state ∧
    ∀ o ∈ (process_signal_task
      ⟨⟨[⟨1, some "BUY EURUSD\nSL 1.0\nTP 2.0", .pending, none⟩], [], []⟩, []⟩ 1 false "e").state.db.orders,
      o.status ≠ OrderStatus.rejected ∧ o.status ≠ OrderStatus.cancelled :=
  ⟨Reachable.processStep 1 false "e"
     (Reachable.init [⟨1, some "BUY EURUSD\nSL 1.0\nTP 2.0", .pending, none⟩] []),
   reachable_orders_never_rejected_cancelled _
     (Reachable.processStep 1 false "e"
       (Reachable.init [⟨1, some "BUY EURUSD\nSL 1.0\nTP 2.0", .pending, none⟩] []))⟩

/-- Witness for C5 at a concrete state: a `success` signal with exactly one
linked order, re-processed. -/
theorem reinvocation_preserves_single_order_witness :
    (findSignal (DB.mk [⟨1, some "BUY EURUSD\nSL 1.0\nTP 2.0", .success, none⟩]
        [⟨1, some 1, some .buy, ['E', 'U', 'R', 'U', 'S', 'D'], none, .fin 10000 (-4), .fin 20000 (-4), .closed⟩] []) 1 =
      some ⟨1, some "BUY EURUSD\nSL 1.0\nTP 2.0", .success, none⟩ ∧
     countOrdersFor (DB.mk [⟨1, some "BUY EURUSD\nSL 1.0\nTP 2.0", .success, none⟩]
        [⟨1, some 1, some .buy, ['E', 'U', 'R', 'U', 'S', 'D'], none, .fin 10000 (-4), .fin 20000 (-4), .closed⟩] []) 1 ≤ 1) ∧
    countOrdersFor (process_signal_task
      ⟨⟨[⟨1, some "BUY EURUSD\nSL 1.0\nTP 2.0", .success, none⟩],
        [⟨1, some 1, some .buy, ['E', 'U', 'R', 'U', 'S', 'D'], none, .fin 10000 (-4), .fin 20000 (-4), .closed⟩], []⟩, []⟩
      1 false "dup").state.db 1 ≤ 1 :=
  ⟨⟨by decide, by decide⟩,
   reinvocation_preserves_single_order
     ⟨⟨[⟨1, some "BUY EURUSD\nSL 1.0\nTP 2.0", .success, none⟩],
       [⟨1, some 1, some .buy, ['E', 'U', 'R', 'U', 'S', 'D'], none, .fin 10000 (-4), .fin 20000 (-4), .closed⟩], []⟩, []⟩
     1 false "dup" ⟨1, some "BUY EURUSD\nSL 1.0\nTP 2.0", .success, none⟩
     (by decide) rfl (by decide)⟩
